import Mathlib

/-
Verification of the client-side session protocol handler of a browser
control panel for a remotely hosted process.  The repository has two
console components: the live-console component (its functions
handleMessage, sendStdin, killProcess, startScript, sendWsMessage and the
socket onclose handler) and the maintenance-panel component (its functions
handleWsMessage, checkStatus, onStart, onStop, the terminal onData handler
and its socket onclose handler), plus an HTTP API client.  Each component
is embedded as a record of its reactive state together with pure state
transformers, one per event handler; outbound socket frames and
invocations of the HTTP status poller are returned as explicit effect
lists.
-/

/-- Kind tag of one displayed log line in the live console. -/
inductive LogKind where
  | stdout
  | stderr
  | info
  | error
deriving DecidableEq, Repr

/-- One entry of the live-console log sequence (the component keeps them in
the reactive array named lines). -/
structure LogEntry where
  kind : LogKind
  data : String
deriving DecidableEq, Repr

/-- A successfully parsed inbound frame: the object produced by JSON.parse,
with each field the handlers read modelled as optional (absent fields read
as undefined in the source). -/
structure Msg where
  type : String
  script : Option String := none
  data : Option String := none
  code : Option Int := none
  signal : Option String := none
  message : Option String := none
  detail : Option String := none
deriving DecidableEq, Repr

/-- Raw inbound text as seen through JSON.parse: either the parse throws
(malformed, keeping the raw text for the diagnostic) or it yields a parsed
message object. -/
inductive Raw where
  | malformed (rawData : String)
  | parsed (msg : Msg)
deriving DecidableEq, Repr

/-- Outbound command frames sent through the socket (the argument of
sendWsMessage before JSON serialisation). -/
inductive OutFrame where
  | start (script : String)
  | stdin (data : String)
  | kill
deriving DecidableEq, Repr

/-- Template interpolation of a possibly absent string field: JS renders
undefined as the text undefined. -/
def jsShow : Option String → String
  | some s => s
  | none => "undefined"

/-- Template interpolation of a possibly absent integer field. -/
def jsShowInt : Option Int → String
  | some n => toString n
  | none => "undefined"

/-- The JS expression msg.signal or-else the text none: undefined and the
empty string are falsy. -/
def orNone : Option String → String
  | some s => if s = "" then "none" else s
  | none => "none"

/-- JS truthiness of an optional string field: undefined and the empty
string are falsy. -/
def truthy : Option String → Bool
  | some s => s ≠ ""
  | none => false

namespace Console

/-- Reactive state of the live-console component.  wsOpen models
ws.value being present with readyState OPEN (the condition tested by
sendWsMessage); isConnected is the separate reactive flag kept by the
onopen and onclose handlers. -/
structure St where
  isConnected : Bool
  sessionState : String
  scriptName : Option String
  exitCode : Option Int
  lines : List LogEntry
  stdinData : String
  selectedScript : String
  wsOpen : Bool
deriving DecidableEq, Repr

/-- addLog pushes one entry onto the lines array. -/
def addLog (kind : LogKind) (data : String) (s : St) : St :=
  { s with lines := s.lines ++ [⟨kind, data⟩] }

/-- sendWsMessage: forwards the frame when the socket is present and OPEN,
otherwise appends an error log entry and sends nothing. -/
def sendWsMessage (m : OutFrame) (s : St) : St × List OutFrame :=
  if s.wsOpen then (s, [m])
  else (addLog .error "WebSocket is not connected." s, [])

/-- The ws.onclose handler of the live console: clears the connected flag,
resets the session phase to idle, clears the script name and logs an info
entry.  The exit code is left untouched. -/
def onClose (s : St) : St :=
  addLog .info "WebSocket Disconnected."
    { s with isConnected := false, sessionState := "idle", scriptName := none,
             wsOpen := false }

/-- The ws.onopen handler of the live console. -/
def onOpen (s : St) : St :=
  { s with isConnected := true, wsOpen := true }

/-- handleMessage: the inbound frame dispatcher of the live console.  A
parse failure logs one error entry and returns; each recognised
discriminator is a switch case; an unrecognised discriminator falls to the
default case, which logs one error entry carrying the raw discriminator. -/
def handleMessage (raw : Raw) (s : St) : St :=
  match raw with
  | .malformed rawData =>
      addLog .error ("Failed to parse JSON: " ++ rawData) s
  | .parsed msg =>
      if msg.type = "ready" then
        addLog .info "Console ready. Select a script to start."
          { s with sessionState := "idle" }
      else if msg.type = "started" then
        addLog .info ("--- Started script: " ++ jsShow msg.script ++ " ---")
          { s with sessionState := "running", scriptName := msg.script,
                   exitCode := none }
      else if msg.type = "stdout" then
        addLog .stdout (jsShow msg.data) s
      else if msg.type = "stderr" then
        addLog .stderr (jsShow msg.data) s
      else if msg.type = "exit" then
        addLog .info ("--- Process exited with code " ++ jsShowInt msg.code ++
            " (Signal: " ++ orNone msg.signal ++ ") ---")
          { s with sessionState := "exited", exitCode := msg.code }
      else if msg.type = "error" then
        addLog .error ("[BACKEND ERROR] " ++ jsShow msg.message ++
            "\nDetail: " ++ msg.detail.getD "") s
      else
        addLog .error ("Unknown message type: " ++ msg.type) s

/-- sendStdin: returns silently unless the session is running and the input
buffer is non-empty; otherwise appends a newline to the payload, forwards
it, echoes the raw input as an info entry and clears the buffer. -/
def sendStdin (s : St) : St × List OutFrame :=
  if s.sessionState ≠ "running" ∨ s.stdinData = "" then (s, [])
  else
    let data := s.stdinData ++ "\n"
    let (s1, fs) := sendWsMessage (.stdin data) s
    let s2 := addLog .info ("> " ++ s.stdinData) s1
    ({ s2 with stdinData := "" }, fs)

/-- killProcess: returns silently unless the session is running; otherwise
logs an info entry and forwards a kill frame.  No local phase change. -/
def killProcess (s : St) : St × List OutFrame :=
  if s.sessionState ≠ "running" then (s, [])
  else
    let s1 := addLog .info "Sending KILL signal..." s
    sendWsMessage .kill s1

/-- startScript: when a script is running, asks for confirmation (the
confirmKill argument is the answer of the confirm dialog) and kills the
running process first or returns; then clears the log sequence and
forwards a start frame carrying the selected script. -/
def startScript (confirmKill : Bool) (s : St) : St × List OutFrame :=
  if s.sessionState = "running" then
    if !confirmKill then (s, [])
    else
      let (s1, f1) := killProcess s
      let s2 := { s1 with lines := [] }
      let (s3, f2) := sendWsMessage (.start s.selectedScript) s2
      (s3, f1 ++ f2)
  else
    let s2 := { s with lines := ([] : List LogEntry) }
    sendWsMessage (.start s.selectedScript) s2

end Console

/-- Response of the HTTP API client: either ok with a data payload carrying
a status string, or the structured error object built by the response
interceptor. -/
inductive ApiResponse where
  | ok (status : String)
  | err (httpStatus : Nat) (error : String) (details : String)
deriving DecidableEq, Repr

/-- Whether the response is the ok variant. -/
def ApiResponse.isOk : ApiResponse → Bool
  | .ok _ => true
  | .err .. => false

namespace Panel

/-- Effects emitted by the maintenance-panel handlers: an outbound frame, an
invocation of the HTTP status poller, or opening the socket. -/
inductive Eff where
  | send (f : OutFrame)
  | checkStatus
  | connect
deriving DecidableEq, Repr

/-- Reactive state of the maintenance-panel component.  The xterm terminal
is modelled as the list of written chunks (writeln appends a trailing
CRLF); optional chaining on a null terminal merely drops output and is
modelled with the terminal present.  wsOpen models ws.value being present
with readyState OPEN. -/
structure St where
  status : String
  loadingAction : Option String
  lastResponse : Option ApiResponse
  isWsConnected : Bool
  sessionState : String
  termChunks : List String
  wsOpen : Bool
deriving DecidableEq, Repr

/-- term.writeln appends the text followed by CRLF. -/
def termWriteln (t : String) (p : St) : St :=
  { p with termChunks := p.termChunks ++ [t ++ "\r\n"] }

/-- term.write appends the raw text. -/
def termWrite (t : String) (p : St) : St :=
  { p with termChunks := p.termChunks ++ [t] }

/-- term.reset clears the terminal display. -/
def termReset (p : St) : St :=
  { p with termChunks := [] }

/-- sendWsMessage of the panel: forwards the frame when the socket is
present and OPEN, otherwise writes an error line and sends nothing. -/
def sendWsMessage (m : OutFrame) (p : St) : St × List Eff :=
  if p.wsOpen then (p, [.send m])
  else (termWriteln "\r\n\x1B[31m[Error] WebSocket is not connected.\x1B[0m" p, [])

/-- The response handler of checkStatus: on ok stores the reported status,
on error sets the status display to error and retains the response for
display.  The loadingAction flag is set while the query runs and cleared
at the end. -/
def checkStatus (response : ApiResponse) (p : St) : St :=
  let p1 := { p with loadingAction := some "status" }
  let p2 :=
    match response with
    | .ok st => { p1 with status := st }
    | .err .. => { p1 with status := "error", lastResponse := some response }
  { p2 with loadingAction := none }

/-- The ws.onclose handler of the panel: clears the connected flag, resets
the session phase to idle, writes a line and re-invokes the status
poller. -/
def onClose (p : St) : St × List Eff :=
  (termWriteln "\r\n\x1B[31mWebSocket Disconnected.\x1B[0m"
    { p with isWsConnected := false, sessionState := "idle", wsOpen := false },
   [.checkStatus])

/-- The ws.onopen handler of the panel. -/
def onOpen (p : St) : St × List Eff :=
  (termWriteln "\r\n\x1B[32mWebSocket Connected.\x1B[0m"
    { p with isWsConnected := true, wsOpen := true }, [])

/-- handleWsMessage: the inbound frame dispatcher of the panel.  A parse
failure writes one error line and returns; the exit case re-invokes the
status poller; the error case writes the message (and the detail when
truthy) and sets the phase to exited without invoking the poller; the
switch has no default case, so an unrecognised discriminator does
nothing. -/
def handleWsMessage (raw : Raw) (p : St) : St × List Eff :=
  match raw with
  | .malformed rawData =>
      (termWriteln ("\r\n\x1B[31m[ERROR] Failed to parse JSON: " ++ rawData ++
        "\x1B[0m") p, [])
  | .parsed msg =>
      if msg.type = "ready" then
        (termWriteln "\r\n\x1B[32mConsole is ready.\x1B[0m"
          { p with sessionState := "idle" }, [])
      else if msg.type = "started" then
        (termWriteln ("\r\n\x1B[33m--- Starting script: " ++ jsShow msg.script ++
            " ---\x1B[0m\r\n")
          { p with sessionState := "running" }, [])
      else if msg.type = "stdout" then
        (termWrite (jsShow msg.data) p, [])
      else if msg.type = "stderr" then
        (termWrite ("\x1B[31m" ++ jsShow msg.data ++ "\x1B[0m") p, [])
      else if msg.type = "exit" then
        (termWriteln ("\r\n\x1B[33m--- Process exited with code " ++
            jsShowInt msg.code ++ " ---\x1B[0m")
          { p with sessionState := "exited" }, [.checkStatus])
      else if msg.type = "error" then
        let p1 := termWriteln ("\r\n\x1B[31m[BACKEND ERROR] " ++
            jsShow msg.message ++ "\x1B[0m") p
        let p2 :=
          if truthy msg.detail then
            termWriteln ("\x1B[31m  Detail: " ++ jsShow msg.detail ++ "\x1B[0m") p1
          else p1
        ({ p2 with sessionState := "exited" }, [])
      else (p, [])

/-- The term.onData handler: each chunk of keyboard input is forwarded as a
stdin frame only while the session is running and the socket is connected;
otherwise it is dropped. -/
def onData (d : String) (p : St) : St × List Eff :=
  if p.sessionState = "running" && p.isWsConnected then
    sendWsMessage (.stdin d) p
  else (p, [])

/-- onStart: rejected silently while a session is running; otherwise resets
the terminal, forwards a start frame for the interactive script and
re-invokes the status poller. -/
def onStart (p : St) : St × List Eff :=
  if p.sessionState = "running" then (p, [])
  else
    let p1 := termReset p
    let (p2, fs) := sendWsMessage (.start "start-interactive") p1
    (p2, fs ++ [.checkStatus])

/-- onStop: while running, sends the stop command through stdin; otherwise
resets the terminal and starts the fallback stop script. -/
def onStop (p : St) : St × List Eff :=
  if p.sessionState = "running" then
    sendWsMessage (.stdin "stop\n") p
  else
    sendWsMessage (.start "stop") (termReset p)

/-- The onMounted lifecycle hook: writes the welcome lines, invokes the
status poller and opens the socket. -/
def onMounted (p : St) : St × List Eff :=
  let p1 := termWriteln "Connecting to backend..."
    (termWriteln "Welcome to the Minecraft Server Console!" p)
  (p1, [.checkStatus, .connect])

end Panel

/-
Concrete states used by witnesses and counterexamples.
-/

/-- A live-console state with no process attached. -/
def cIdle : Console.St :=
  { isConnected := true, sessionState := "idle", scriptName := none,
    exitCode := none, lines := [], stdinData := "", selectedScript := "start",
    wsOpen := true }

/-- A live-console state with a running script. -/
def cRunning : Console.St :=
  { isConnected := true, sessionState := "running", scriptName := some "start",
    exitCode := none, lines := [], stdinData := "", selectedScript := "start",
    wsOpen := true }

/-- A live-console state after a script exited with code 0. -/
def cExited : Console.St :=
  { isConnected := true, sessionState := "exited", scriptName := some "start",
    exitCode := some 0, lines := [], stdinData := "", selectedScript := "start",
    wsOpen := true }

/-- A maintenance-panel state with no process attached. -/
def pIdle : Panel.St :=
  { status := "unknown", loadingAction := none, lastResponse := none,
    isWsConnected := true, sessionState := "idle", termChunks := [],
    wsOpen := true }

/-- A maintenance-panel state with a running session. -/
def pRunning : Panel.St :=
  { pIdle with sessionState := "running" }

/-- Claim C1, as the code has it: in the maintenance-panel handler a
BackendError frame sets the session phase to exited, while in the
live-console handler it only appends an error-kind log entry and leaves
the phase unchanged (so a running phase stays running there). -/
theorem backendError_phase (s : Console.St) (p : Panel.St) (msg : Msg)
    (h : msg.type = "error") :
    (Panel.handleWsMessage (Raw.parsed msg) p).1.sessionState = "exited" ∧
    (Console.handleMessage (Raw.parsed msg) s).sessionState = s.sessionState ∧
    (Console.handleMessage (Raw.parsed msg) s).lines =
      s.lines ++ [⟨LogKind.error, "[BACKEND ERROR] " ++ jsShow msg.message ++
        "\nDetail: " ++ msg.detail.getD ""⟩] := by
  refine ⟨?_, ?_, ?_⟩ <;>
    simp [Panel.handleWsMessage, Console.handleMessage, h, Console.addLog,
      Panel.termWriteln]

/-- Instance of the previous theorem at a concrete running state and a
concrete error frame. -/
theorem backendError_phase_witness :
    (Panel.handleWsMessage (Raw.parsed { type := "error", message := some "boom" })
        pIdle).1.sessionState = "exited" ∧
    (Console.handleMessage (Raw.parsed { type := "error", message := some "boom" })
        cRunning).sessionState = cRunning.sessionState ∧
    (Console.handleMessage (Raw.parsed { type := "error", message := some "boom" })
        cRunning).lines =
      cRunning.lines ++ [⟨LogKind.error, "[BACKEND ERROR] " ++
        jsShow (some "boom") ++ "\nDetail: " ++ (none : Option String).getD ""⟩] :=
  backendError_phase cRunning pIdle { type := "error", message := some "boom" } rfl

/-- Counterexample to claim C1 as stated: in the live console, handling a
BackendError frame from the running phase leaves the phase running. -/
theorem backendError_counterexample :
    (Console.handleMessage (Raw.parsed { type := "error", message := some "boom" })
        cRunning).sessionState = "running" := rfl

/-- Claim C2, as the code has it: on transport close both components reset
the phase to idle and clear the connected flag, and the live console
clears the script name, but the last exit code of the live console is
retained, not cleared (and neither component keeps an exit-signal
value). -/
theorem disconnect_reset (s : Console.St) (p : Panel.St) :
    (Console.onClose s).sessionState = "idle" ∧
    (Console.onClose s).scriptName = none ∧
    (Console.onClose s).isConnected = false ∧
    (Console.onClose s).exitCode = s.exitCode ∧
    (Panel.onClose p).1.sessionState = "idle" ∧
    (Panel.onClose p).1.isWsConnected = false := by
  simp [Console.onClose, Panel.onClose, Console.addLog, Panel.termWriteln]

/-- Counterexample to claim C2 as stated: closing the transport from a
state whose last exit code is 0 leaves the exit code set, not cleared. -/
theorem disconnect_counterexample :
    (Console.onClose cExited).exitCode = some 0 ∧
    (Console.onClose cExited).exitCode ≠ none := by
  exact ⟨rfl, by decide⟩

/-- Claim C3, as the code has it: a Ready frame sets the phase to idle in
both components, but the live console leaves activeScriptName and
lastExitCode unchanged rather than clearing them. -/
theorem ready_phase (s : Console.St) (p : Panel.St) (msg : Msg)
    (h : msg.type = "ready") :
    (Console.handleMessage (Raw.parsed msg) s).sessionState = "idle" ∧
    (Console.handleMessage (Raw.parsed msg) s).scriptName = s.scriptName ∧
    (Console.handleMessage (Raw.parsed msg) s).exitCode = s.exitCode ∧
    (Panel.handleWsMessage (Raw.parsed msg) p).1.sessionState = "idle" := by
  refine ⟨?_, ?_, ?_, ?_⟩ <;>
    simp [Console.handleMessage, Panel.handleWsMessage, h, Console.addLog,
      Panel.termWriteln]

/-- Instance of the previous theorem at a concrete exited state with a
recorded script name and exit code. -/
theorem ready_phase_witness :
    (Console.handleMessage (Raw.parsed { type := "ready" }) cExited).sessionState
        = "idle" ∧
    (Console.handleMessage (Raw.parsed { type := "ready" }) cExited).scriptName
        = cExited.scriptName ∧
    (Console.handleMessage (Raw.parsed { type := "ready" }) cExited).exitCode
        = cExited.exitCode ∧
    (Panel.handleWsMessage (Raw.parsed { type := "ready" }) pIdle).1.sessionState
        = "idle" :=
  ready_phase cExited pIdle { type := "ready" } rfl

/-- Counterexample to claim C3 as stated: after a Ready frame the live
console still holds the old script name and exit code, so they are not
cleared. -/
theorem ready_counterexample :
    (Console.handleMessage (Raw.parsed { type := "ready" }) cExited).scriptName
        = some "start" ∧
    (Console.handleMessage (Raw.parsed { type := "ready" }) cExited).exitCode
        = some 0 := by
  exact ⟨rfl, rfl⟩

/-- A live-console state that is idle but has text in the input buffer. -/
def cIdleInput : Console.St :=
  { cIdle with stdinData := "hello" }

/-- A live-console state that is running with text in the input buffer. -/
def cRunningInput : Console.St :=
  { cRunning with stdinData := "say hi" }

/-- Claim C4, as the code has it: an action rejected by the phase check
sends no frame on the transport, but the rejection is silent — the state
is returned unchanged, so no error log entry or error return value is
produced. -/
theorem gate_reject_silent (s : Console.St) (p : Panel.St)
    (hs : s.sessionState ≠ "running") (hp : p.sessionState = "running") :
    Console.sendStdin s = (s, []) ∧
    Console.killProcess s = (s, []) ∧
    Panel.onStart p = (p, []) := by
  refine ⟨?_, ?_, ?_⟩
  · simp [Console.sendStdin, hs]
  · simp [Console.killProcess, hs]
  · simp [Panel.onStart, hp]

/-- Instance of the previous theorem at a concrete idle console state with
buffered input and a concrete running panel state. -/
theorem gate_reject_silent_witness :
    Console.sendStdin cIdleInput = (cIdleInput, []) ∧
    Console.killProcess cIdleInput = (cIdleInput, []) ∧
    Panel.onStart pRunning = (pRunning, []) :=
  gate_reject_silent cIdleInput pRunning (by decide) rfl

/-- Counterexample to claim C4 as stated: rejecting send-input while the
phase is idle leaves the log sequence empty — no user-visible error entry
is produced — and sends no frame. -/
theorem gate_reject_counterexample :
    Console.sendStdin cIdleInput = (cIdleInput, []) ∧
    (Console.sendStdin cIdleInput).1.lines = [] := by
  exact ⟨rfl, rfl⟩

/-- Claim C5: a stdin frame is transmitted exactly when the phase is
running, the input buffer is non-empty and the socket is open; when it is,
the payload gets a newline terminator, the raw pre-newline input is echoed
as an info-kind log entry and the buffer is cleared. -/
theorem sendStdin_spec (s : Console.St) :
    ((Console.sendStdin s).2 ≠ [] ↔
      (s.sessionState = "running" ∧ s.stdinData ≠ "" ∧ s.wsOpen = true)) ∧
    (s.sessionState = "running" → s.stdinData ≠ "" → s.wsOpen = true →
      Console.sendStdin s =
        ({ s with lines := s.lines ++ [⟨LogKind.info, "> " ++ s.stdinData⟩],
                  stdinData := "" },
         [OutFrame.stdin (s.stdinData ++ "\n")])) := by
  by_cases h1 : s.sessionState = "running" <;>
    by_cases h2 : s.stdinData = "" <;>
      by_cases h3 : s.wsOpen <;>
        simp [Console.sendStdin, Console.sendWsMessage, Console.addLog,
          h1, h2, h3]

/-- Instance of the previous theorem at a concrete running state with
buffered input: the frame carries the newline-terminated payload and the
raw input is echoed. -/
theorem sendStdin_spec_witness :
    Console.sendStdin cRunningInput =
      ({ cRunningInput with
          lines := cRunningInput.lines ++
            [⟨LogKind.info, "> " ++ cRunningInput.stdinData⟩],
          stdinData := "" },
       [OutFrame.stdin (cRunningInput.stdinData ++ "\n")]) :=
  (sendStdin_spec cRunningInput).2 rfl (by decide) rfl

/-- Claim C7: kill never changes the phase locally, a kill frame is only
sent while the phase is running, and while running with the socket open it
sends exactly one kill frame and the phase stays running. -/
theorem kill_spec (s : Console.St) :
    (Console.killProcess s).1.sessionState = s.sessionState ∧
    ((Console.killProcess s).2 ≠ [] → s.sessionState = "running") ∧
    (s.sessionState = "running" → s.wsOpen = true →
      (Console.killProcess s).2 = [OutFrame.kill] ∧
      (Console.killProcess s).1.sessionState = "running") := by
  by_cases h1 : s.sessionState = "running" <;>
    by_cases h2 : s.wsOpen <;>
      simp [Console.killProcess, Console.sendWsMessage, Console.addLog, h1, h2]

/-- Instance of the previous theorem at a concrete running state: the kill
frame is sent and the phase remains running. -/
theorem kill_spec_witness :
    (Console.killProcess cRunning).2 = [OutFrame.kill] ∧
    (Console.killProcess cRunning).1.sessionState = "running" :=
  (kill_spec cRunning).2.2 rfl rfl

/-- Claim C6, as the code has it: decoding is non-fatal in both handlers —
malformed input appends exactly one error entry (or writes one error line)
and leaves the phase unchanged; an unrecognised discriminator appends one
error entry carrying the raw discriminator in the live console, but in the
maintenance panel it is silently discarded with no output and no effect;
every handler returns a value, so no exception escapes. -/
theorem decode_nonfatal (s : Console.St) (p : Panel.St) (rawData : String)
    (msg : Msg)
    (h1 : msg.type ≠ "ready") (h2 : msg.type ≠ "started")
    (h3 : msg.type ≠ "stdout") (h4 : msg.type ≠ "stderr")
    (h5 : msg.type ≠ "exit") (h6 : msg.type ≠ "error") :
    Console.handleMessage (Raw.malformed rawData) s =
      Console.addLog .error ("Failed to parse JSON: " ++ rawData) s ∧
    (Console.handleMessage (Raw.malformed rawData) s).sessionState
      = s.sessionState ∧
    Console.handleMessage (Raw.parsed msg) s =
      Console.addLog .error ("Unknown message type: " ++ msg.type) s ∧
    (Console.handleMessage (Raw.parsed msg) s).sessionState = s.sessionState ∧
    Panel.handleWsMessage (Raw.malformed rawData) p =
      (Panel.termWriteln ("\r\n\x1B[31m[ERROR] Failed to parse JSON: " ++
        rawData ++ "\x1B[0m") p, []) ∧
    (Panel.handleWsMessage (Raw.malformed rawData) p).1.sessionState
      = p.sessionState ∧
    Panel.handleWsMessage (Raw.parsed msg) p = (p, []) := by
  refine ⟨rfl, ?_, ?_, ?_, rfl, ?_, ?_⟩ <;>
    simp [Console.handleMessage, Panel.handleWsMessage, Console.addLog,
      Panel.termWriteln, h1, h2, h3, h4, h5, h6]

/-- Instance of the previous theorem at concrete idle states, a concrete
malformed text and a concrete unknown discriminator. -/
theorem decode_nonfatal_witness :
    Console.handleMessage (Raw.malformed "not json") cIdle =
      Console.addLog .error ("Failed to parse JSON: " ++ "not json") cIdle ∧
    (Console.handleMessage (Raw.malformed "not json") cIdle).sessionState
      = cIdle.sessionState ∧
    Console.handleMessage (Raw.parsed { type := "bogus" }) cIdle =
      Console.addLog .error ("Unknown message type: " ++ "bogus") cIdle ∧
    (Console.handleMessage (Raw.parsed { type := "bogus" }) cIdle).sessionState
      = cIdle.sessionState ∧
    Panel.handleWsMessage (Raw.malformed "not json") pIdle =
      (Panel.termWriteln ("\r\n\x1B[31m[ERROR] Failed to parse JSON: " ++
        "not json" ++ "\x1B[0m") pIdle, []) ∧
    (Panel.handleWsMessage (Raw.malformed "not json") pIdle).1.sessionState
      = pIdle.sessionState ∧
    Panel.handleWsMessage (Raw.parsed { type := "bogus" }) pIdle = (pIdle, []) :=
  decode_nonfatal cIdle pIdle "not json" { type := "bogus" }
    (by decide) (by decide) (by decide) (by decide) (by decide) (by decide)

/-- Counterexample to claim C6 as stated: in the maintenance panel a frame
with the unrecognised discriminator bogus produces no DecodeError display
at all — the state is unchanged, nothing is written to the terminal and no
effect is emitted. -/
theorem decode_unknown_counterexample :
    Panel.handleWsMessage (Raw.parsed { type := "bogus" }) pIdle = (pIdle, []) ∧
    (Panel.handleWsMessage (Raw.parsed { type := "bogus" }) pIdle).1.termChunks
      = [] := by
  exact ⟨rfl, rfl⟩

/-- Claim C8, as the code has it: the status poller is invoked on mount, on
transport close and on an Exit frame; a failed poll sets the status
display to error, retains the error response for display and never touches
the session phase.  (A BackendError frame also moves the phase to exited
but does not invoke the poller.) -/
theorem poller_spec (p : Panel.St) (resp : ApiResponse) (msg : Msg)
    (hmsg : msg.type = "exit") (hresp : resp.isOk = false) :
    Panel.Eff.checkStatus ∈ (Panel.onMounted p).2 ∧
    Panel.Eff.checkStatus ∈ (Panel.onClose p).2 ∧
    Panel.Eff.checkStatus ∈ (Panel.handleWsMessage (Raw.parsed msg) p).2 ∧
    (Panel.checkStatus resp p).status = "error" ∧
    (Panel.checkStatus resp p).lastResponse = some resp ∧
    (∀ r : ApiResponse, (Panel.checkStatus r p).sessionState = p.sessionState) := by
  cases resp with
  | ok st => simp [ApiResponse.isOk] at hresp
  | err c e d =>
      refine ⟨?_, ?_, ?_, ?_, ?_, ?_⟩
      · simp [Panel.onMounted]
      · simp [Panel.onClose]
      · simp [Panel.handleWsMessage, hmsg, Panel.termWriteln]
      · simp [Panel.checkStatus]
      · simp [Panel.checkStatus]
      · intro r
        cases r <;> simp [Panel.checkStatus]

/-- Instance of the previous theorem at a concrete running panel state, a
concrete failed response and a concrete exit frame. -/
theorem poller_spec_witness :
    Panel.Eff.checkStatus ∈ (Panel.onMounted pRunning).2 ∧
    Panel.Eff.checkStatus ∈ (Panel.onClose pRunning).2 ∧
    Panel.Eff.checkStatus ∈
      (Panel.handleWsMessage (Raw.parsed { type := "exit", code := some 0 })
        pRunning).2 ∧
    (Panel.checkStatus (ApiResponse.err 500 "boom" "down") pRunning).status
      = "error" ∧
    (Panel.checkStatus (ApiResponse.err 500 "boom" "down") pRunning).lastResponse
      = some (ApiResponse.err 500 "boom" "down") ∧
    (∀ r : ApiResponse,
      (Panel.checkStatus r pRunning).sessionState = pRunning.sessionState) :=
  poller_spec pRunning (ApiResponse.err 500 "boom" "down")
    { type := "exit", code := some 0 } rfl rfl

/-- Counterexample to claim C8 as stated: a BackendError frame moves the
session phase to exited, yet the handler emits no status-poller
invocation. -/
theorem poller_counterexample :
    (Panel.handleWsMessage (Raw.parsed { type := "error", message := some "boom" })
        pRunning).1.sessionState = "exited" ∧
    (Panel.handleWsMessage (Raw.parsed { type := "error", message := some "boom" })
        pRunning).2 = [] := by
  exact ⟨rfl, rfl⟩

/-- A live-console state with the update script selected. -/
def cIdleUpdate : Console.St :=
  { cIdle with selectedScript := "update" }

/-- Claim C9: starting with the update script selected sends a start frame
carrying update, and handling the echoed started frame for update records
activeScriptName = update. -/
theorem roundtrip_update (s s2 : Console.St) (c : Bool) (msg : Msg)
    (h1 : s.selectedScript = "update") (h2 : s.sessionState ≠ "running")
    (h3 : s.wsOpen = true) (h4 : msg.type = "started")
    (h5 : msg.script = some "update") :
    (Console.startScript c s).2 = [OutFrame.start "update"] ∧
    (Console.handleMessage (Raw.parsed msg) s2).scriptName = some "update" := by
  constructor
  · simp [Console.startScript, Console.sendWsMessage, h1, h2, h3]
  · simp [Console.handleMessage, Console.addLog, h4, h5]

/-- Instance of the previous theorem at a concrete idle state with the
update script selected and the concrete echoed started frame. -/
theorem roundtrip_update_witness :
    (Console.startScript false cIdleUpdate).2 = [OutFrame.start "update"] ∧
    (Console.handleMessage
        (Raw.parsed { type := "started", script := some "update" })
        cIdle).scriptName = some "update" :=
  roundtrip_update cIdleUpdate cIdle false
    { type := "started", script := some "update" } rfl (by decide) rfl rfl rfl

/-- Claim C10: with the connected flag in sync with the socket, each chunk
of terminal keyboard input is forwarded verbatim as its own stdin frame —
no newline appended, no echo entry, state unchanged — exactly when the
session is running and the socket is connected; otherwise it is silently
dropped with no frame and no output. -/
theorem onData_spec (p : Panel.St) (d : String)
    (h : p.isWsConnected = p.wsOpen) :
    Panel.onData d p =
      (p, if p.sessionState = "running" ∧ p.isWsConnected = true
          then [Panel.Eff.send (OutFrame.stdin d)] else []) := by
  by_cases h1 : p.sessionState = "running" <;>
    by_cases h2 : p.isWsConnected <;>
      simp [Panel.onData, Panel.sendWsMessage, h1, h2, ← h]

/-- Instance of the previous theorem at a concrete running connected panel
state. -/
theorem onData_spec_witness :
    Panel.onData "list" pRunning =
      (pRunning, if pRunning.sessionState = "running" ∧
          pRunning.isWsConnected = true
        then [Panel.Eff.send (OutFrame.stdin "list")] else []) :=
  onData_spec pRunning "list" rfl
